import Mathlib

/-!
Shallow embedding of the Smart-Attendance-Tracker core (attendance ledger,
percentage aggregation, course summary, alerting pass, attendance writes).

Sources embedded:
- `src/models.py`: `Attendance` rows (unique on (student_user_id, course_id,
  date)), `User.get_attendance_percentage`, `Course.get_attendance_summary`,
  `Notification` rows.
- `src/services.py`: `AttendanceService.check_and_send_alerts`,
  `ReportService.get_attendance_summary`, `EmailService.send_attendance_alert`
  (boundary Notifier, modelled as a Bool-valued outcome function).
- `src/app.py`: `check_and_send_alerts` (fixed-period variant),
  `take_attendance` (INSERT OR REPLACE upsert), `modify_attendance`
  (SQL UPDATE by key).
- `src/routes/faculty.py`: `take_attendance` (plain ORM inserts, rolled back
  when the unique attendance constraint is violated at commit),
  `modify_attendance` (first-match ORM update).
- `src/database.py`: the sqlite schema, in particular
  `UNIQUE(student_user_id, course_id, date)` on the attendance table.

Calendar dates are encoded as natural numbers whose order agrees with the
ISO date order used by the source (e.g. 2025-07-25 as 20250725); attendance
statuses are the source's strings. Percentages are rationals: the source's
float arithmetic `present / total * 100` on the small integer counts involved
is exact real arithmetic, which ℚ mirrors faithfully.
-/

/-- One row of the `attendance` table (`src/models.py` lines 133-147,
`src/database.py` lines 30-40). The autoincrement `id`, `remarks` and the
timestamps play no role in any claim and are omitted. -/
structure AttendanceRecord where
  student_user_id : Nat
  course_id : Nat
  date : Nat
  status : String
deriving DecidableEq, Repr

/-- A row of the `users` table as consumed by the alerting code
(`src/models.py` lines 9-27): id, email, full name, role, active flag. -/
structure Student where
  id : Nat
  email : String
  full_name : String
  role : String
  is_active : Bool
deriving DecidableEq, Repr

/-- A row of the `notifications` table (`src/models.py` lines 178-191). -/
structure Notification where
  user_id : Nat
  title : String
  message : String
  type : String
deriving DecidableEq, Repr

/-- The course as consumed by the alerting code: only its id and name are
read (`src/services.py` line 93, `src/app.py` line 354). -/
structure Course where
  id : Nat
  name : String
deriving DecidableEq, Repr

/-- The database state touched by the alerting pass: the attendance ledger
and the notification log. -/
structure DBState where
  attendance : List AttendanceRecord
  notifications : List Notification
deriving DecidableEq, Repr

/-- `Config.ATTENDANCE_THRESHOLD`. `config.py` itself is not in the tree;
the value 75 is pinned by the environment files the repository generates
(`src/deploy.py` line 77, `src/production_setup.py` line 58) and hardcoded
in `src/app.py` lines 377 and 189. -/
def ATTENDANCE_THRESHOLD : ℚ := 75

/-- `Config.ALERT_PERIOD_DAYS` (`src/deploy.py` line 78,
`src/production_setup.py` line 59). -/
def ALERT_PERIOD_DAYS : Nat := 15

/-- The optional date-range filter `date >= start_date` / `date <= end_date`
applied by the aggregation queries (`src/models.py` lines 43-46, 104-107;
`src/services.py` lines 144-147). -/
def inWindow (d : Nat) (s e : Option Nat) : Bool :=
  (match s with
   | none => true
   | some sd => decide (sd ≤ d)) &&
  (match e with
   | none => true
   | some ed => decide (d ≤ ed))

/-- The row filter of `User.get_attendance_percentage`
(`src/models.py` lines 38-46): rows of this student, this course, inside the
optional window. -/
def matchesStudentCourse (uid cid : Nat) (s e : Option Nat)
    (r : AttendanceRecord) : Bool :=
  r.student_user_id == uid && r.course_id == cid && inWindow r.date s e

/-- `User.get_attendance_percentage` (`src/models.py` lines 36-53):
`total_classes` matching rows, `present_classes` of them with status
`Present`; returns `0` when `total_classes = 0`, otherwise
`present / total * 100`. -/
def get_attendance_percentage (recs : List AttendanceRecord)
    (uid cid : Nat) (s e : Option Nat) : ℚ :=
  let q := recs.filter (matchesStudentCourse uid cid s e)
  let total_classes := q.length
  let present_classes := (q.filter (fun r => r.status == "Present")).length
  if total_classes == 0 then 0
  else ((present_classes : ℚ) / (total_classes : ℚ)) * 100

/-- The result record of the course-wide summary
(`src/services.py` lines 153-158, `src/models.py` lines 113-118). -/
structure AttendanceSummary where
  total_records : Nat
  present_records : Nat
  absent_records : Nat
  attendance_rate : ℚ
deriving DecidableEq, Repr

/-- `ReportService.get_attendance_summary` (`src/services.py` lines 136-158);
`Course.get_attendance_summary` (`src/models.py` lines 98-118) is the same
computation with `course_id` fixed. `absent = total - present`, and
`rate = present / total * 100` with `0` for an empty selection. -/
def get_attendance_summary (recs : List AttendanceRecord)
    (course_id : Option Nat) (s e : Option Nat) : AttendanceSummary :=
  let q := recs.filter (fun r =>
    (match course_id with
     | none => true
     | some c => r.course_id == c) && inWindow r.date s e)
  let total_records := q.length
  let present_records := (q.filter (fun r => r.status == "Present")).length
  { total_records := total_records
    present_records := present_records
    absent_records := total_records - present_records
    attendance_rate :=
      if 0 < total_records
      then ((present_records : ℚ) / (total_records : ℚ)) * 100
      else 0 }

/-! ## The alerting pass, `src/services.py` version -/

/-- The per-student alert condition of
`AttendanceService.check_and_send_alerts` (`src/services.py` line 108):
`percentage < Config.ATTENDANCE_THRESHOLD and percentage > 0`. -/
def alertCond (p : ℚ) : Bool :=
  decide (p < ATTENDANCE_THRESHOLD) && decide (p > 0)

/-- The window defaulting of `check_and_send_alerts`
(`src/services.py` lines 98-100): when either bound is missing, both are
replaced by the trailing `ALERT_PERIOD_DAYS` window ending `today`. The
call site's `date.today()` is passed in as `today`; `today - days` stands
for `end_date - timedelta(days=...)` in the date encoding. -/
def resolveWindow (s e : Option Nat) (today : Nat) : Option Nat × Option Nat :=
  match s, e with
  | some sd, some ed => (some sd, some ed)
  | _, _ => (some (today - ALERT_PERIOD_DAYS), some today)

/-- The notification row built for an alerted student
(`src/services.py` lines 118-123). The `f`-string numeric formatting of
the percentage is elided from the message text; user id, title and type
are as in the source. -/
def mkAlertNotification (u : Student) (c : Course) : Notification :=
  { user_id := u.id
    title := "Low Attendance Alert"
    message := "Your attendance for " ++ c.name ++ " is below the threshold"
    type := "attendance_alert" }

/-- The observable outcome of one run of
`AttendanceService.check_and_send_alerts`: the database state it leaves
behind, the student ids for which the Notifier
(`EmailService.send_attendance_alert`) was invoked, in order, the Bool
results those invocations returned (bound to `email_sent` in the source and
then never read), and the exception, if any, escaping to the caller. -/
structure AlertRun where
  state : DBState
  emails : List Nat
  sendResults : List Bool
  raised : Option String
deriving Repr

/-- The loop filter of `check_and_send_alerts` (`src/services.py` lines
102-115): the active users with role `student` whose percentage over the
window satisfies the alert condition. -/
def alertedStudents (recs : List AttendanceRecord) (students : List Student)
    (cid : Nat) (w1 w2 : Option Nat) : List Student :=
  (students.filter (fun u => u.role == "student" && u.is_active)).filter
    (fun u => alertCond (get_attendance_percentage recs u.id cid w1 w2))

/-- `AttendanceService.check_and_send_alerts` (`src/services.py` lines
90-131). `course` is the `Course.query.get(course_id)` result; the function
returns immediately when it is `none`. Every active user with role
`student` whose percentage over the resolved window satisfies `alertCond`
gets a Notifier call (outcome given by the boundary function `emailOk`,
ignored by the source) and a notification row added to the session. The
final `db.session.commit()` is modelled by `commitOk`: on success the added
rows persist; on a store failure the `except` clause logs, rolls the
session back, and lets no exception escape (`raised = none` either way) —
the Notifier calls made before the failure are not undone. -/
def check_and_send_alerts (st : DBState) (students : List Student)
    (course : Option Course) (course_id : Nat) (s e : Option Nat)
    (today : Nat) (emailOk : Nat → Bool) (commitOk : Bool) : AlertRun :=
  match course with
  | none => { state := st, emails := [], sendResults := [], raised := none }
  | some c =>
    let w := resolveWindow s e today
    let alerted := alertedStudents st.attendance students course_id w.1 w.2
    let emails := alerted.map (fun u => u.id)
    let sendResults := alerted.map (fun u => emailOk u.id)
    let notifs := alerted.map (fun u => mkAlertNotification u c)
    if commitOk then
      { state := { st with notifications := st.notifications ++ notifs }
        emails := emails, sendResults := sendResults, raised := none }
    else
      { state := st, emails := emails, sendResults := sendResults
        raised := none }

/-! ## The alerting pass, `src/app.py` version -/

/-- `PERIOD_START_DATE = "2025-07-25"` (`src/app.py` line 358). -/
def PERIOD_START_DATE : Nat := 20250725

/-- `PERIOD_END_DATE = "2025-08-08"` (`src/app.py` line 359). -/
def PERIOD_END_DATE : Nat := 20250808

/-- The per-student alert condition of `src/app.py`'s `check_and_send_alerts`
(lines 374-378): `total > 0` and `present / total * 100 < 75`. -/
def appAlertCond (total present : Nat) : Bool :=
  decide (0 < total) &&
  decide (((present : ℚ) / (total : ℚ)) * 100 < 75)

/-- The row filter of the stats query in `src/app.py`'s
`check_and_send_alerts` (lines 364-371): this student, this course,
`date BETWEEN PERIOD_START_DATE AND PERIOD_END_DATE`. -/
def appStatsFilter (uid cid : Nat) (r : AttendanceRecord) : Bool :=
  r.student_user_id == uid && r.course_id == cid &&
  decide (PERIOD_START_DATE ≤ r.date) && decide (r.date ≤ PERIOD_END_DATE)

/-- The body of the per-student check in `src/app.py`'s
`check_and_send_alerts` (lines 362-378): run the stats query for the
student over the fixed period and apply the alert condition to the
resulting total / present counts. -/
def appViolation (recs : List AttendanceRecord) (cid uid : Nat) : Bool :=
  let q := recs.filter (appStatsFilter uid cid)
  appAlertCond q.length (q.filter (fun r => r.status == "Present")).length

/-- `check_and_send_alerts` of `src/app.py` (lines 352-378): over the fixed
historical period, for every user with role `student` (the sqlite schema
has no active flag), send an alert when the period has records and the
percentage is below 75. Returns the student ids for which
`send_attendance_alert` was called, in order; this version keeps no record
at all of the alerts it sends. -/
def check_and_send_alerts_app (recs : List AttendanceRecord)
    (students : List Student) (course : Option Course) (course_id : Nat) :
    List Nat :=
  match course with
  | none => []
  | some _ =>
    ((students.filter (fun u => u.role == "student")).filter
      (fun u => appViolation recs course_id u.id)).map (fun u => u.id)

/-! ## Recording attendance -/

/-- The composite key of the attendance unique constraint
(`src/database.py` line 37, `src/models.py` line 147):
(student_user_id, course_id, date). -/
def attKey (r : AttendanceRecord) : Nat × Nat × Nat :=
  (r.student_user_id, r.course_id, r.date)

/-- The resulting status of one roster entry in the two-list reconciliation
(`src/app.py` lines 212-215, `src/routes/faculty.py` lines 88-91):
`Present` if the student id is in the marked-present list, `Absent`
otherwise. -/
def reconcileStatus (present_student_ids : List Nat) (sid : Nat) : String :=
  if present_student_ids.contains sid then "Present" else "Absent"

/-- `INSERT OR REPLACE INTO attendance ...` (`src/app.py` line 218) against
the `UNIQUE(student_user_id, course_id, date)` constraint
(`src/database.py` line 37): sqlite deletes any row conflicting on the key
and inserts the new row. -/
def insertOrReplace (recs : List AttendanceRecord) (r : AttendanceRecord) :
    List AttendanceRecord :=
  recs.filter (fun x => !(decide (attKey x = attKey r))) ++ [r]

/-- The row written for one roster entry by both `take_attendance` bodies
(`src/app.py` lines 218-219, `src/routes/faculty.py` lines 94-99). -/
def mkAttendance (course_id dte : Nat) (present_student_ids : List Nat)
    (sid : Nat) : AttendanceRecord :=
  { student_user_id := sid, course_id := course_id, date := dte
    status := reconcileStatus present_student_ids sid }

/-- The POST body of `take_attendance` in `src/app.py` (lines 200-221):
for every student id in the roster list, upsert one row for
(student, course, date) with the reconciled status. -/
def take_attendance (recs : List AttendanceRecord) (course_id dte : Nat)
    (all_student_ids present_student_ids : List Nat) :
    List AttendanceRecord :=
  all_student_ids.foldl (fun acc sid =>
    insertOrReplace acc (mkAttendance course_id dte present_student_ids sid))
    recs

/-- The POST body of `take_attendance` in `src/routes/faculty.py`
(lines 75-113): one fresh `Attendance` object is added per roster entry and
the session is committed once. When any added row collides on the unique
(student, course, date) key — with an existing row or with another added
row — the commit raises `IntegrityError`, the `except` clause rolls the
session back, and the ledger is left unchanged. -/
def take_attendance_faculty (recs : List AttendanceRecord)
    (course_id dte : Nat) (all_student_ids present_student_ids : List Nat) :
    List AttendanceRecord :=
  let newRecs :=
    all_student_ids.map (mkAttendance course_id dte present_student_ids)
  if decide (newRecs.map attKey).Nodup &&
     newRecs.all (fun r => !(recs.any (fun x => decide (attKey x = attKey r))))
  then recs ++ newRecs
  else recs

/-- All rows of the ledger carrying a given (student, course, date) key:
the view through which the unique-key invariant is stated. -/
def filterKey (recs : List AttendanceRecord) (k : Nat × Nat × Nat) :
    List AttendanceRecord :=
  recs.filter (fun r => decide (attKey r = k))

/-! ## Modifying attendance -/

/-- One step of `UPDATE attendance SET status = ? WHERE student_user_id = ?
AND course_id = ? AND date = ?` (`src/app.py` line 259) applied to one row:
the row's status is replaced when its key matches, otherwise the row is
untouched. `u` is the (student_id, status) pair of one submitted form
entry. -/
def applyUpdate (course_id dte : Nat) (u : Nat × String)
    (r : AttendanceRecord) : AttendanceRecord :=
  if r.student_user_id == u.1 && r.course_id == course_id && r.date == dte
  then { r with status := u.2 }
  else r

/-- The POST body of `modify_attendance` in `src/app.py` (lines 255-261):
one `UPDATE ... WHERE student_user_id AND course_id AND date` per submitted
(student_id, status) pair — the parallel `student_ids`/`statuses` form
lists arrive here zipped into pairs. An `UPDATE` matching no row changes
nothing and creates nothing. -/
def modify_attendance (recs : List AttendanceRecord) (course_id dte : Nat)
    (updates : List (Nat × String)) : List AttendanceRecord :=
  updates.foldl (fun acc u => acc.map (applyUpdate course_id dte u)) recs

/-- `Attendance.query.filter_by(...).first()` followed by
`attendance.status = statuses[i]` (`src/routes/faculty.py` lines 148-156):
only the first row matching the key has its status replaced; when no row
matches, nothing happens. -/
def updateFirst (sid course_id dte : Nat) (st' : String) :
    List AttendanceRecord → List AttendanceRecord
  | [] => []
  | r :: rest =>
    if r.student_user_id == sid && r.course_id == course_id && r.date == dte
    then { r with status := st' } :: rest
    else r :: updateFirst sid course_id dte st' rest

/-- The POST body of `modify_attendance` in `src/routes/faculty.py`
(lines 141-158): per submitted pair, update the first matching row's status;
no row is ever created. -/
def modify_attendance_faculty (recs : List AttendanceRecord)
    (course_id dte : Nat) (updates : List (Nat × String)) :
    List AttendanceRecord :=
  updates.foldl (fun acc u => updateFirst u.1 course_id dte u.2 acc) recs

/-- The per-record cumulative effect of `modify_attendance`: all submitted
updates applied in order to one row. -/
def applyUpdates (course_id dte : Nat) (updates : List (Nat × String))
    (r : AttendanceRecord) : AttendanceRecord :=
  updates.foldl (fun x u => applyUpdate course_id dte u x) r

/-- Whether some submitted update targets this row's key. -/
def targeted (course_id dte : Nat) (updates : List (Nat × String))
    (r : AttendanceRecord) : Bool :=
  updates.any (fun u =>
    r.student_user_id == u.1 && r.course_id == course_id && r.date == dte)

/-! ## Basic lemmas -/

theorem beq_absent_present : ("Absent" == "Present") = false := by decide

theorem beq_present_present : ("Present" == "Present") = true := by decide

/-- A student with no matching rows gets the plain number 0 from
`get_attendance_percentage` (`src/models.py` lines 51-52). -/
theorem get_attendance_percentage_of_no_records
    (recs : List AttendanceRecord) (uid cid : Nat) (s e : Option Nat)
    (h : (recs.filter (matchesStudentCourse uid cid s e)).length = 0) :
    get_attendance_percentage recs uid cid s e = 0 := by
  simp only [get_attendance_percentage, h]
  rfl

theorem alertCond_zero : alertCond 0 = false := by
  simp [alertCond]

theorem alertCond_at_threshold : alertCond ATTENDANCE_THRESHOLD = false := by
  simp [alertCond]

theorem alertCond_eq_false_of_no_records
    (recs : List AttendanceRecord) (uid cid : Nat) (w1 w2 : Option Nat)
    (h : (recs.filter (matchesStudentCourse uid cid w1 w2)).length = 0) :
    alertCond (get_attendance_percentage recs uid cid w1 w2) = false := by
  rw [get_attendance_percentage_of_no_records recs uid cid w1 w2 h]
  exact alertCond_zero

theorem appAlertCond_zero_total (present : Nat) :
    appAlertCond 0 present = false := by
  simp [appAlertCond]

theorem appViolation_eq_false_of_no_records
    (recs : List AttendanceRecord) (cid uid : Nat)
    (h : (recs.filter (appStatsFilter uid cid)).length = 0) :
    appViolation recs cid uid = false := by
  simp only [appViolation, h]
  exact appAlertCond_zero_total _

/-! ## Structural lemmas about one alerting run -/

theorem check_and_send_alerts_emails (st : DBState) (students : List Student)
    (c : Course) (cid : Nat) (s e : Option Nat) (today : Nat)
    (ek : Nat → Bool) (cOk : Bool) :
    (check_and_send_alerts st students (some c) cid s e today ek cOk).emails
      = (alertedStudents st.attendance students cid
          (resolveWindow s e today).1 (resolveWindow s e today).2).map
          (fun u => u.id) := by
  cases cOk <;> rfl

theorem check_and_send_alerts_sendResults (st : DBState)
    (students : List Student) (c : Course) (cid : Nat) (s e : Option Nat)
    (today : Nat) (ek : Nat → Bool) (cOk : Bool) :
    (check_and_send_alerts st students (some c) cid s e today ek cOk).sendResults
      = (alertedStudents st.attendance students cid
          (resolveWindow s e today).1 (resolveWindow s e today).2).map
          (fun u => ek u.id) := by
  cases cOk <;> rfl

theorem check_and_send_alerts_state_commit (st : DBState)
    (students : List Student) (c : Course) (cid : Nat) (s e : Option Nat)
    (today : Nat) (ek : Nat → Bool) :
    (check_and_send_alerts st students (some c) cid s e today ek true).state
      = { st with notifications := st.notifications ++
          ((alertedStudents st.attendance students cid
            (resolveWindow s e today).1 (resolveWindow s e today).2).map
            (fun u => mkAlertNotification u c)) } := rfl

theorem check_and_send_alerts_state_rollback (st : DBState)
    (students : List Student) (c : Course) (cid : Nat) (s e : Option Nat)
    (today : Nat) (ek : Nat → Bool) :
    (check_and_send_alerts st students (some c) cid s e today ek false).state
      = st := rfl

theorem check_and_send_alerts_raised (st : DBState) (students : List Student)
    (co : Option Course) (cid : Nat) (s e : Option Nat) (today : Nat)
    (ek : Nat → Bool) (b : Bool) :
    (check_and_send_alerts st students co cid s e today ek b).raised
      = none := by
  rcases co with _ | c <;> cases b <;> rfl

theorem alertCond_of_mem_alerted_id (recs : List AttendanceRecord)
    (students : List Student) (cid : Nat) (w1 w2 : Option Nat) (sid : Nat)
    (h : sid ∈ (alertedStudents recs students cid w1 w2).map (fun u => u.id)) :
    alertCond (get_attendance_percentage recs sid cid w1 w2) = true := by
  rcases List.mem_map.mp h with ⟨u, hu, huid⟩
  rcases List.mem_filter.mp hu with ⟨-, hcond⟩
  rw [← huid]
  exact hcond

/-! ## Lemmas about the upsert and batch recording -/

theorem attKey_mkAttendance (cid d : Nat) (P : List Nat) (sid : Nat) :
    attKey (mkAttendance cid d P sid) = (sid, cid, d) := rfl

/-- After an upsert, the key written holds exactly the written row. -/
theorem filterKey_insertOrReplace_self (recs : List AttendanceRecord)
    (r : AttendanceRecord) :
    filterKey (insertOrReplace recs r) (attKey r) = [r] := by
  unfold filterKey insertOrReplace
  rw [List.filter_append]
  have h1 : (recs.filter (fun x => !(decide (attKey x = attKey r)))).filter
      (fun x => decide (attKey x = attKey r)) = [] := by
    rw [List.filter_filter]
    apply List.filter_eq_nil_iff.mpr
    intro a _
    by_cases hk : attKey a = attKey r <;> simp [hk]
  rw [h1]
  simp

/-- An upsert leaves every other key untouched. -/
theorem filterKey_insertOrReplace_other (recs : List AttendanceRecord)
    (r : AttendanceRecord) (k : Nat × Nat × Nat) (h : k ≠ attKey r) :
    filterKey (insertOrReplace recs r) k = filterKey recs k := by
  unfold filterKey insertOrReplace
  rw [List.filter_append, List.filter_filter]
  have h2 : ([r].filter (fun x => decide (attKey x = k))) = [] := by
    have hne : ¬ attKey r = k := fun he => h he.symm
    simp [hne]
  rw [h2, List.append_nil]
  apply List.filter_congr
  intro a _
  by_cases hk : attKey a = k
  · have hne : ¬ attKey a = attKey r := fun he => h (by rw [← hk, he])
    simp [hk, hne, h]
  · simp [hk]

theorem take_attendance_nil (recs : List AttendanceRecord) (cid d : Nat)
    (P : List Nat) : take_attendance recs cid d [] P = recs := rfl

theorem take_attendance_cons (recs : List AttendanceRecord) (cid d : Nat)
    (a : Nat) (R P : List Nat) :
    take_attendance recs cid d (a :: R) P
      = take_attendance (insertOrReplace recs (mkAttendance cid d P a))
          cid d R P := rfl

/-- The batch write touches only the keys of the roster: any key whose
student is outside the roster, or whose course or date differ, keeps
exactly its previous rows. -/
theorem take_attendance_filterKey_frame (cid d : Nat) (P R : List Nat)
    (k : Nat × Nat × Nat) (h : ∀ s ∈ R, k ≠ (s, cid, d)) :
    ∀ recs : List AttendanceRecord,
      filterKey (take_attendance recs cid d R P) k = filterKey recs k := by
  induction R with
  | nil => intro recs; rfl
  | cons a R ih =>
    intro recs
    rw [take_attendance_cons,
      ih (fun s hs => h s (List.mem_cons_of_mem _ hs)),
      filterKey_insertOrReplace_other]
    rw [attKey_mkAttendance]
    exact h a (List.mem_cons_self _ _)

/-- After the batch write, every rostered student holds exactly one row for
(student, course, date), carrying the reconciled status. -/
theorem take_attendance_filterKey_mem (cid d : Nat) (P R : List Nat)
    (sid : Nat) (h : sid ∈ R) :
    ∀ recs : List AttendanceRecord,
      filterKey (take_attendance recs cid d R P) (sid, cid, d)
        = [mkAttendance cid d P sid] := by
  induction R with
  | nil => cases h
  | cons a R ih =>
    intro recs
    rw [take_attendance_cons]
    by_cases hm : sid ∈ R
    · exact ih hm _
    · have ha : sid = a := by
        rcases List.mem_cons.mp h with h' | h'
        · exact h'
        · exact absurd h' hm
      subst ha
      rw [take_attendance_filterKey_frame cid d P R _
        (fun s hs hk => hm (by
          have : sid = s := congrArg Prod.fst hk
          rwa [this])),
        ← attKey_mkAttendance cid d P sid,
        filterKey_insertOrReplace_self]

/-- `src/routes/faculty.py`'s `take_attendance` rolls back the whole batch
when a rostered student already has a row for (course, date): the commit
violates the unique key and the `except` clause restores the old ledger. -/
theorem take_attendance_faculty_rollback (recs : List AttendanceRecord)
    (cid d : Nat) (R P : List Nat) (sid : Nat) (hmem : sid ∈ R)
    (hkey : recs.any (fun r => decide (attKey r = (sid, cid, d))) = true) :
    take_attendance_faculty recs cid d R P = recs := by
  unfold take_attendance_faculty
  have hall : (R.map (mkAttendance cid d P)).all
      (fun r => !(recs.any (fun x => decide (attKey x = attKey r)))) = false := by
    apply Bool.eq_false_iff.mpr
    intro hab
    have := List.all_eq_true.mp hab (mkAttendance cid d P sid)
      (List.mem_map_of_mem _ hmem)
    rw [attKey_mkAttendance, hkey] at this
    simp at this
  simp only [take_attendance_faculty]
  simp [hall]

/-! ## Lemmas about modifying attendance -/

theorem attKey_applyUpdate (cid d : Nat) (u : Nat × String)
    (r : AttendanceRecord) : attKey (applyUpdate cid d u r) = attKey r := by
  unfold applyUpdate
  split <;> rfl

theorem attKey_applyUpdates (cid d : Nat) (ups : List (Nat × String))
    (r : AttendanceRecord) : attKey (applyUpdates cid d ups r) = attKey r := by
  induction ups generalizing r with
  | nil => rfl
  | cons u ups ih =>
    rw [applyUpdates, List.foldl_cons]
    exact (ih (applyUpdate cid d u r)).trans (attKey_applyUpdate cid d u r)

/-- `src/app.py`'s `modify_attendance` is a row-wise map: each row of the
old ledger is carried to the new ledger, with only its status possibly
rewritten. -/
theorem modify_attendance_eq_map (recs : List AttendanceRecord)
    (cid d : Nat) (ups : List (Nat × String)) :
    modify_attendance recs cid d ups = recs.map (applyUpdates cid d ups) := by
  induction ups generalizing recs with
  | nil =>
    have h0 : applyUpdates cid d [] = fun r => r := rfl
    rw [modify_attendance, List.foldl_nil, h0, List.map_id']
  | cons u ups ih =>
    rw [modify_attendance, List.foldl_cons]
    rw [show ups.foldl (fun acc v => acc.map (applyUpdate cid d v))
        (recs.map (applyUpdate cid d u)) = modify_attendance
        (recs.map (applyUpdate cid d u)) cid d ups from rfl]
    rw [ih, List.map_map]
    apply List.map_congr_left
    intro r _
    rfl

/-- A row whose key no submitted update targets is not changed by the
cumulative update. -/
theorem applyUpdates_of_not_targeted (cid d : Nat)
    (ups : List (Nat × String)) (r : AttendanceRecord)
    (h : targeted cid d ups r = false) :
    applyUpdates cid d ups r = r := by
  induction ups with
  | nil => rfl
  | cons u ups ih =>
    rw [targeted, List.any_cons] at h
    rcases Bool.or_eq_false_iff.mp h with ⟨h1, h2⟩
    rw [applyUpdates, List.foldl_cons]
    have hr : applyUpdate cid d u r = r := by
      unfold applyUpdate
      rw [h1]
      rfl
    rw [hr]
    exact ih h2

theorem updateFirst_map_attKey (sid cid d : Nat) (st' : String)
    (recs : List AttendanceRecord) :
    (updateFirst sid cid d st' recs).map attKey = recs.map attKey := by
  induction recs with
  | nil => rfl
  | cons a rest ih =>
    rw [updateFirst]
    split
    · rfl
    · rw [List.map_cons, List.map_cons, ih]

/-- `src/routes/faculty.py`'s `modify_attendance` preserves the multiset
and order of ledger keys: no row is created or deleted. -/
theorem modify_attendance_faculty_map_attKey (recs : List AttendanceRecord)
    (cid d : Nat) (ups : List (Nat × String)) :
    (modify_attendance_faculty recs cid d ups).map attKey
      = recs.map attKey := by
  induction ups generalizing recs with
  | nil => rfl
  | cons u ups ih =>
    rw [modify_attendance_faculty, List.foldl_cons]
    rw [show ups.foldl (fun acc v => updateFirst v.1 cid d v.2 acc)
        (updateFirst u.1 cid d u.2 recs) = modify_attendance_faculty
        (updateFirst u.1 cid d u.2 recs) cid d ups from rfl]
    rw [ih, updateFirst_map_attKey]

theorem mem_updateFirst_of_not_hit (sid cid d : Nat) (st' : String)
    (r : AttendanceRecord) (recs : List AttendanceRecord) (hr : r ∈ recs)
    (h : (r.student_user_id == sid && r.course_id == cid && r.date == d)
          = false) :
    r ∈ updateFirst sid cid d st' recs := by
  induction recs with
  | nil => cases hr
  | cons a rest ih =>
    rw [updateFirst]
    rcases List.mem_cons.mp hr with rfl | hmem
    · rw [if_neg (by rw [h]; exact Bool.false_ne_true)]
      exact List.mem_cons_self _ _
    · split
      · exact List.mem_cons_of_mem _ hmem
      · exact List.mem_cons_of_mem _ (ih hmem)

/-- A row no submitted update targets survives `src/routes/faculty.py`'s
`modify_attendance` unchanged. -/
theorem mem_modify_attendance_faculty_of_not_targeted
    (recs : List AttendanceRecord) (cid d : Nat) (ups : List (Nat × String))
    (r : AttendanceRecord) (hr : r ∈ recs)
    (h : targeted cid d ups r = false) :
    r ∈ modify_attendance_faculty recs cid d ups := by
  induction ups generalizing recs with
  | nil => exact hr
  | cons u ups ih =>
    rw [targeted, List.any_cons] at h
    rcases Bool.or_eq_false_iff.mp h with ⟨h1, h2⟩
    rw [modify_attendance_faculty, List.foldl_cons]
    rw [show ups.foldl (fun acc v => updateFirst v.1 cid d v.2 acc)
        (updateFirst u.1 cid d u.2 recs) = modify_attendance_faculty
        (updateFirst u.1 cid d u.2 recs) cid d ups from rfl]
    exact ih _ (mem_updateFirst_of_not_hit u.1 cid d u.2 r recs hr h1) h2

/-! ## Claim C4 -/

/-- C4 counterexample: a student with zero attended classes out of a
positive total (one `Absent` row in the window, percentage 0) is NOT
alerted by `AttendanceService.check_and_send_alerts` — the Notifier call
list of the run is empty, refuting the claim that such a snapshot "is
alerted, not excluded". -/
theorem C4_counterexample :
    (check_and_send_alerts
        ⟨[⟨1, 1, 20250801, "Absent"⟩], []⟩
        [⟨1, "s1@example.com", "S One", "student", true⟩]
        (some ⟨1, "Math"⟩) 1
        (some 20250725) (some 20250808) 20250808 (fun _ => true) true).emails
      = [] := by
  norm_num [check_and_send_alerts, alertedStudents, resolveWindow, alertCond,
    get_attendance_percentage, matchesStudentCourse, inWindow, List.filter,
    mkAlertNotification, beq_absent_present, ATTENDANCE_THRESHOLD]

/-- C4 (amended): `src/services.py` alerts exactly when
`0 < percentage < ATTENDANCE_THRESHOLD`, so a percentage of exactly the
threshold is not alerted and a 0% snapshot with positive total is excluded
there; `src/app.py`'s `check_and_send_alerts` alerts exactly when
`total > 0` and `percentage < 75`, so the same 0% student IS alerted on
that path (final conjunct: the concrete all-absent student from the
counterexample is notified by the `app.py` pass). -/
theorem C4_amended (p : ℚ) (total present : Nat) :
    (alertCond p = true ↔ (0 < p ∧ p < ATTENDANCE_THRESHOLD)) ∧
    alertCond ATTENDANCE_THRESHOLD = false ∧
    alertCond 0 = false ∧
    (appAlertCond total present = true ↔
      (0 < total ∧ ((present : ℚ) / (total : ℚ)) * 100 < 75)) ∧
    check_and_send_alerts_app
      [⟨1, 1, 20250801, "Absent"⟩]
      [⟨1, "s1@example.com", "S One", "student", true⟩]
      (some ⟨1, "Math"⟩) 1 = [1] := by
  refine ⟨?_, alertCond_at_threshold, alertCond_zero, ?_, ?_⟩
  · simp [alertCond, and_comm]
  · simp [appAlertCond]
  · norm_num [check_and_send_alerts_app, appViolation, appStatsFilter,
      appAlertCond, List.filter, beq_absent_present, PERIOD_START_DATE,
      PERIOD_END_DATE]

/-! ## Claim C5 -/

/-- C5 counterexample: `User.get_attendance_percentage` returns the plain
number 0 for a student with no matching rows — the very same value a
measured student with one `Absent` row (a genuine 0%) receives — so there
is no distinct "no data" sentinel and callers cannot distinguish the two
by the return value. -/
theorem C5_counterexample :
    get_attendance_percentage [] 1 1 none none = 0 ∧
    get_attendance_percentage
      [⟨1, 1, 20250801, "Absent"⟩] 1 1 none none = 0 := by
  constructor <;>
    norm_num [get_attendance_percentage, matchesStudentCourse, inWindow,
      List.filter, beq_absent_present]

/-- C5 (amended): when no rows match, `get_attendance_percentage` returns
the number 0 (not a sentinel); unmeasured students are nevertheless kept
out of alerting because the alert condition requires `percentage > 0`. -/
theorem C5_amended (recs : List AttendanceRecord) (uid cid : Nat)
    (s e : Option Nat)
    (h : (recs.filter (matchesStudentCourse uid cid s e)).length = 0) :
    get_attendance_percentage recs uid cid s e = 0 ∧
    alertCond (get_attendance_percentage recs uid cid s e) = false :=
  ⟨get_attendance_percentage_of_no_records recs uid cid s e h,
   alertCond_eq_false_of_no_records recs uid cid s e h⟩

/-- C5 witness: the amended theorem applied to an empty ledger. -/
theorem C5_amended_witness :
    (([] : List AttendanceRecord).filter
      (matchesStudentCourse 7 3 none none)).length = 0 ∧
    (get_attendance_percentage [] 7 3 none none = 0 ∧
     alertCond (get_attendance_percentage [] 7 3 none none) = false) :=
  ⟨rfl, C5_amended [] 7 3 none none rfl⟩

/-! ## Claim C8 -/

/-- C8: the course-wide summary reports
`absent_records = total_records - present_records` (with
`present_records ≤ total_records`, so the subtraction is exact),
`attendance_rate = present / total * 100` when `total_records > 0` and
`attendance_rate = 0` when `total_records = 0`; meanwhile on the
per-student alerting path a student with zero records in the window is
excluded from alerting (the alert condition is false for them), not
reported as a 0% violation. -/
theorem C8_course_summary (recs : List AttendanceRecord) (cid : Nat)
    (s e : Option Nat) (uid : Nat)
    (hz : (recs.filter (matchesStudentCourse uid cid s e)).length = 0) :
    (get_attendance_summary recs (some cid) s e).present_records
      ≤ (get_attendance_summary recs (some cid) s e).total_records ∧
    (get_attendance_summary recs (some cid) s e).absent_records
        + (get_attendance_summary recs (some cid) s e).present_records
      = (get_attendance_summary recs (some cid) s e).total_records ∧
    (0 < (get_attendance_summary recs (some cid) s e).total_records →
      (get_attendance_summary recs (some cid) s e).attendance_rate
        = ((get_attendance_summary recs (some cid) s e).present_records : ℚ)
            / ((get_attendance_summary recs (some cid) s e).total_records : ℚ)
            * 100) ∧
    ((get_attendance_summary recs (some cid) s e).total_records = 0 →
      (get_attendance_summary recs (some cid) s e).attendance_rate = 0) ∧
    alertCond (get_attendance_percentage recs uid cid s e) = false := by
  have hle : (get_attendance_summary recs (some cid) s e).present_records
      ≤ (get_attendance_summary recs (some cid) s e).total_records := by
    simp only [get_attendance_summary]
    exact List.length_filter_le _ _
  refine ⟨hle, ?_, ?_, ?_,
    alertCond_eq_false_of_no_records recs uid cid s e hz⟩
  · simp only [get_attendance_summary] at hle ⊢
    exact Nat.sub_add_cancel hle
  · intro hpos
    simp only [get_attendance_summary] at hpos ⊢
    rw [if_pos hpos]
  · intro h0
    simp only [get_attendance_summary] at h0 ⊢
    rw [if_neg (by omega)]

/-- C8 witness: a one-row course ledger; the student with the other id has
no rows, so the summary facts and the per-student exclusion instantiate. -/
theorem C8_course_summary_witness :
    (([⟨1, 1, 20250105, "Present"⟩] : List AttendanceRecord).filter
      (matchesStudentCourse 2 1 none none)).length = 0 ∧
    (get_attendance_summary [⟨1, 1, 20250105, "Present"⟩]
        (some 1) none none).absent_records
        + (get_attendance_summary [⟨1, 1, 20250105, "Present"⟩]
            (some 1) none none).present_records
      = (get_attendance_summary [⟨1, 1, 20250105, "Present"⟩]
          (some 1) none none).total_records ∧
    (get_attendance_summary [⟨1, 1, 20250105, "Present"⟩]
        (some 1) none none).attendance_rate
      = ((get_attendance_summary [⟨1, 1, 20250105, "Present"⟩]
            (some 1) none none).present_records : ℚ)
          / ((get_attendance_summary [⟨1, 1, 20250105, "Present"⟩]
              (some 1) none none).total_records : ℚ) * 100 ∧
    alertCond (get_attendance_percentage [⟨1, 1, 20250105, "Present"⟩]
        2 1 none none) = false :=
  ⟨by decide,
   (C8_course_summary [⟨1, 1, 20250105, "Present"⟩] 1 none none 2
     (by decide)).2.1,
   (C8_course_summary [⟨1, 1, 20250105, "Present"⟩] 1 none none 2
     (by decide)).2.2.1 (by decide),
   (C8_course_summary [⟨1, 1, 20250105, "Present"⟩] 1 none none 2
     (by decide)).2.2.2.2⟩

/-! ## Claim C6 -/

/-- C6: a student with zero attendance records in the evaluated window is
never passed to the Notifier by either alerting pass: the student's id is
not among the Notifier calls of `AttendanceService.check_and_send_alerts`,
no notification row for that id is added by the run, and the id is not
among the Notifier calls of `src/app.py`'s `check_and_send_alerts` when
the student has no rows in its fixed period. -/
theorem C6_zero_records_never_alerted (st : DBState)
    (students : List Student) (c : Course) (cid : Nat) (s e : Option Nat)
    (today : Nat) (ek : Nat → Bool) (cOk : Bool)
    (recs : List AttendanceRecord) (sid : Nat)
    (h1 : (st.attendance.filter (matchesStudentCourse sid cid
            (resolveWindow s e today).1 (resolveWindow s e today).2)).length
          = 0)
    (h2 : (recs.filter (appStatsFilter sid cid)).length = 0) :
    sid ∉ (check_and_send_alerts st students (some c) cid s e today ek
            cOk).emails ∧
    ((check_and_send_alerts st students (some c) cid s e today ek
        cOk).state.notifications.filter (fun n => n.user_id == sid)).length
      = (st.notifications.filter (fun n => n.user_id == sid)).length ∧
    sid ∉ check_and_send_alerts_app recs students (some c) cid := by
  refine ⟨?_, ?_, ?_⟩
  · rw [check_and_send_alerts_emails]
    intro hmem
    have hc := alertCond_of_mem_alerted_id _ _ _ _ _ _ hmem
    rw [alertCond_eq_false_of_no_records _ _ _ _ _ h1] at hc
    exact Bool.false_ne_true hc
  · cases cOk
    · rw [check_and_send_alerts_state_rollback]
    · rw [check_and_send_alerts_state_commit]
      have hnil : ((alertedStudents st.attendance students cid
          (resolveWindow s e today).1 (resolveWindow s e today).2).map
          (fun u => mkAlertNotification u c)).filter
          (fun n => n.user_id == sid) = [] := by
        apply List.filter_eq_nil_iff.mpr
        intro n hn
        rcases List.mem_map.mp hn with ⟨u, hu, rfl⟩
        intro hbeq
        have huid : u.id = sid := by
          simpa [mkAlertNotification] using hbeq
        rcases List.mem_filter.mp hu with ⟨-, hcond⟩
        rw [huid, alertCond_eq_false_of_no_records _ _ _ _ _ h1] at hcond
        exact Bool.false_ne_true hcond
      show ((st.notifications ++ _).filter _).length = _
      rw [List.filter_append, hnil, List.append_nil]
  · intro hmem
    simp only [check_and_send_alerts_app] at hmem
    rcases List.mem_map.mp hmem with ⟨u, hu, huid⟩
    rcases List.mem_filter.mp hu with ⟨-, hcond⟩
    rw [huid] at hcond
    rw [appViolation_eq_false_of_no_records recs cid sid h2] at hcond
    exact Bool.false_ne_true hcond

/-- C6 witness: a ledger holding only rows of student 1; student 2 has
zero records in every window and is alerted by neither pass. -/
theorem C6_zero_records_never_alerted_witness :
    ((⟨[⟨1, 1, 20250726, "Present"⟩], []⟩ : DBState).attendance.filter
      (matchesStudentCourse 2 1 (resolveWindow (some 20250725)
        (some 20250808) 20250808).1 (resolveWindow (some 20250725)
        (some 20250808) 20250808).2)).length = 0 ∧
    (([⟨1, 1, 20250726, "Present"⟩] : List AttendanceRecord).filter
      (appStatsFilter 2 1)).length = 0 ∧
    (2 ∉ (check_and_send_alerts ⟨[⟨1, 1, 20250726, "Present"⟩], []⟩
        [⟨2, "s2@example.com", "S Two", "student", true⟩] (some ⟨1, "Math"⟩)
        1 (some 20250725) (some 20250808) 20250808 (fun _ => true)
        true).emails ∧
     ((check_and_send_alerts ⟨[⟨1, 1, 20250726, "Present"⟩], []⟩
        [⟨2, "s2@example.com", "S Two", "student", true⟩] (some ⟨1, "Math"⟩)
        1 (some 20250725) (some 20250808) 20250808 (fun _ => true)
        true).state.notifications.filter (fun n => n.user_id == 2)).length
       = ((⟨[⟨1, 1, 20250726, "Present"⟩], []⟩ : DBState).notifications.filter
          (fun n => n.user_id == 2)).length ∧
     2 ∉ check_and_send_alerts_app [⟨1, 1, 20250726, "Present"⟩]
        [⟨2, "s2@example.com", "S Two", "student", true⟩] (some ⟨1, "Math"⟩)
        1) :=
  ⟨by decide, by decide,
   C6_zero_records_never_alerted ⟨[⟨1, 1, 20250726, "Present"⟩], []⟩
     [⟨2, "s2@example.com", "S Two", "student", true⟩] ⟨1, "Math"⟩ 1
     (some 20250725) (some 20250808) 20250808 (fun _ => true) true
     [⟨1, 1, 20250726, "Present"⟩] 2 (by decide) (by decide)⟩

/-! ## Claim C1 -/

/-- C1 counterexample: a student at 50% (one `Present`, one `Absent` row in
the window) is alerted by `AttendanceService.check_and_send_alerts`; running
the pass a second time over the very same window calls the Notifier for the
same student again (`emails = [1]` on the second run, not a skip) and a
second alert notification row accumulates (two rows for the student after
the two runs) — refuting both the `SkippedDuplicate` outcome and the
at-most-one-alert-record invariant. -/
theorem C1_counterexample :
    (check_and_send_alerts
        (check_and_send_alerts
          ⟨[⟨1, 1, 20250726, "Present"⟩, ⟨1, 1, 20250727, "Absent"⟩], []⟩
          [⟨1, "s1@example.com", "S One", "student", true⟩]
          (some ⟨1, "Math"⟩) 1 (some 20250725) (some 20250808) 20250808
          (fun _ => true) true).state
        [⟨1, "s1@example.com", "S One", "student", true⟩]
        (some ⟨1, "Math"⟩) 1 (some 20250725) (some 20250808) 20250808
        (fun _ => true) true).emails = [1] ∧
    ((check_and_send_alerts
        (check_and_send_alerts
          ⟨[⟨1, 1, 20250726, "Present"⟩, ⟨1, 1, 20250727, "Absent"⟩], []⟩
          [⟨1, "s1@example.com", "S One", "student", true⟩]
          (some ⟨1, "Math"⟩) 1 (some 20250725) (some 20250808) 20250808
          (fun _ => true) true).state
        [⟨1, "s1@example.com", "S One", "student", true⟩]
        (some ⟨1, "Math"⟩) 1 (some 20250725) (some 20250808) 20250808
        (fun _ => true) true).state.notifications.filter
      (fun n => n.user_id == 1)).length = 2 := by
  constructor <;>
    norm_num [check_and_send_alerts, alertedStudents, resolveWindow,
      alertCond, get_attendance_percentage, matchesStudentCourse, inWindow,
      List.filter, mkAlertNotification, beq_absent_present,
      beq_present_present, ATTENDANCE_THRESHOLD]

/-- C1 (amended): the alerting pass keeps no idempotency record and never
consults the notification log: a second run over the same window and
unchanged attendance calls the Notifier for exactly the same students
again, and each committed run appends one further notification row per
violating student (after two runs, `2 ×` the per-run alert count). -/
theorem C1_amended (st : DBState) (students : List Student) (c : Course)
    (cid : Nat) (s e : Option Nat) (today : Nat) (ek : Nat → Bool) :
    (check_and_send_alerts
        (check_and_send_alerts st students (some c) cid s e today ek
          true).state
        students (some c) cid s e today ek true).emails
      = (check_and_send_alerts st students (some c) cid s e today ek
          true).emails ∧
    (check_and_send_alerts
        (check_and_send_alerts st students (some c) cid s e today ek
          true).state
        students (some c) cid s e today ek true).state.notifications.length
      = st.notifications.length
        + 2 * (check_and_send_alerts st students (some c) cid s e today ek
            true).emails.length := by
  have hatt : (check_and_send_alerts st students (some c) cid s e today ek
      true).state.attendance = st.attendance := by
    rw [check_and_send_alerts_state_commit]
  constructor
  · rw [check_and_send_alerts_emails, check_and_send_alerts_emails, hatt]
  · rw [check_and_send_alerts_state_commit _ students c cid s e today ek,
      check_and_send_alerts_state_commit st students c cid s e today ek,
      check_and_send_alerts_emails st students c cid s e today ek true]
    dsimp only
    simp only [List.length_append, List.length_map]
    omega

/-! ## Claim C3 -/

/-- C3 counterexample: for the same 50% student, a run in which every
Notifier call fails (`sendResults = [false]`) still writes the alert
notification row for the student — refuting "no alert/notification record
is written" on Notifier failure. -/
theorem C3_counterexample :
    (check_and_send_alerts
        ⟨[⟨1, 1, 20250726, "Present"⟩, ⟨1, 1, 20250727, "Absent"⟩], []⟩
        [⟨1, "s1@example.com", "S One", "student", true⟩]
        (some ⟨1, "Math"⟩) 1 (some 20250725) (some 20250808) 20250808
        (fun _ => false) true).sendResults = [false] ∧
    ((check_and_send_alerts
        ⟨[⟨1, 1, 20250726, "Present"⟩, ⟨1, 1, 20250727, "Absent"⟩], []⟩
        [⟨1, "s1@example.com", "S One", "student", true⟩]
        (some ⟨1, "Math"⟩) 1 (some 20250725) (some 20250808) 20250808
        (fun _ => false) true).state.notifications.filter
      (fun n => n.user_id == 1)).length = 1 := by
  constructor <;>
    norm_num [check_and_send_alerts, alertedStudents, resolveWindow,
      alertCond, get_attendance_percentage, matchesStudentCourse, inWindow,
      List.filter, mkAlertNotification, beq_absent_present,
      beq_present_present, ATTENDANCE_THRESHOLD]

/-- C3 (amended): the Notifier's result is ignored — the run's final state
and call list are identical for any two Notifier behaviours, a committed
run writes one notification row per violating student whether or not the
sends failed, and a subsequent run over the same window calls the Notifier
again in every case (because the notification log is never consulted, not
because failures leave no record). -/
theorem C3_amended (st : DBState) (students : List Student) (c : Course)
    (cid : Nat) (s e : Option Nat) (today : Nat) (ek1 ek2 : Nat → Bool)
    (cOk : Bool) :
    (check_and_send_alerts st students (some c) cid s e today ek1 cOk).state
      = (check_and_send_alerts st students (some c) cid s e today ek2
          cOk).state ∧
    (check_and_send_alerts st students (some c) cid s e today ek1 cOk).emails
      = (check_and_send_alerts st students (some c) cid s e today ek2
          cOk).emails ∧
    (check_and_send_alerts st students (some c) cid s e today ek1
        true).state.notifications.length
      = st.notifications.length
        + (check_and_send_alerts st students (some c) cid s e today ek1
            true).emails.length ∧
    (check_and_send_alerts
        (check_and_send_alerts st students (some c) cid s e today ek1
          true).state
        students (some c) cid s e today ek1 true).emails
      = (check_and_send_alerts st students (some c) cid s e today ek1
          true).emails := by
  refine ⟨?_, ?_, ?_, ?_⟩
  · cases cOk <;> rfl
  · cases cOk <;> rfl
  · rw [check_and_send_alerts_state_commit,
      check_and_send_alerts_emails st students c cid s e today ek1 true]
    show (st.notifications ++ _).length = _
    rw [List.length_append, List.length_map, List.length_map]
  · have hatt : (check_and_send_alerts st students (some c) cid s e today
        ek1 true).state.attendance = st.attendance := by
      rw [check_and_send_alerts_state_commit]
    rw [check_and_send_alerts_emails, check_and_send_alerts_emails, hatt]

/-! ## Claim C9 -/

/-- C9 counterexample: a run over the 50% student in which the commit
fails (store failure): the Notifier was already called (`emails = [1]`),
the session is rolled back (no notification persists), and yet no error is
surfaced to the caller (`raised = none`) — the `except` clause swallows the
store failure. -/
theorem C9_counterexample :
    (check_and_send_alerts
        ⟨[⟨1, 1, 20250726, "Present"⟩, ⟨1, 1, 20250727, "Absent"⟩], []⟩
        [⟨1, "s1@example.com", "S One", "student", true⟩]
        (some ⟨1, "Math"⟩) 1 (some 20250725) (some 20250808) 20250808
        (fun _ => true) false).raised = none ∧
    (check_and_send_alerts
        ⟨[⟨1, 1, 20250726, "Present"⟩, ⟨1, 1, 20250727, "Absent"⟩], []⟩
        [⟨1, "s1@example.com", "S One", "student", true⟩]
        (some ⟨1, "Math"⟩) 1 (some 20250725) (some 20250808) 20250808
        (fun _ => true) false).state.notifications = [] ∧
    (check_and_send_alerts
        ⟨[⟨1, 1, 20250726, "Present"⟩, ⟨1, 1, 20250727, "Absent"⟩], []⟩
        [⟨1, "s1@example.com", "S One", "student", true⟩]
        (some ⟨1, "Math"⟩) 1 (some 20250725) (some 20250808) 20250808
        (fun _ => true) false).emails = [1] := by
  refine ⟨rfl, rfl, ?_⟩
  norm_num [check_and_send_alerts, alertedStudents, resolveWindow,
    alertCond, get_attendance_percentage, matchesStudentCourse, inWindow,
    List.filter, mkAlertNotification, beq_absent_present,
    beq_present_present, ATTENDANCE_THRESHOLD]

/-- C9 (amended): `check_and_send_alerts` never surfaces any error to its
caller (`raised = none` for every input, course present or not, store
healthy or failing); on a store failure the session is rolled back to the
incoming state while the Notifier calls already made are exactly those of
a successful run. -/
theorem C9_amended (st : DBState) (students : List Student)
    (co : Option Course) (cid : Nat) (s e : Option Nat) (today : Nat)
    (ek : Nat → Bool) (b : Bool) :
    (check_and_send_alerts st students co cid s e today ek b).raised
      = none ∧
    (check_and_send_alerts st students co cid s e today ek false).state
      = st ∧
    (check_and_send_alerts st students co cid s e today ek false).emails
      = (check_and_send_alerts st students co cid s e today ek
          true).emails := by
  refine ⟨check_and_send_alerts_raised st students co cid s e today ek b,
    ?_, ?_⟩ <;> rcases co with _ | c <;> rfl

/-! ## Claim C2 -/

/-- C2 counterexample: through `src/routes/faculty.py`'s `take_attendance`,
recording (student 1, course 1, 2025-01-03) first as `Present` and then
re-recording the same key as `Absent` leaves the single existing record
with status `Present`: the second write violates the unique key, the whole
submission rolls back, and the status is NOT replaced by the later one —
refuting "the later write replaces the status and never ... fails". -/
theorem C2_counterexample :
    take_attendance_faculty
        (take_attendance_faculty [] 1 20250103 [1] [1]) 1 20250103 [1] []
      = [⟨1, 1, 20250103, "Present"⟩] := by
  decide

/-- C2 (amended): on `src/app.py`'s `take_attendance` path
(`INSERT OR REPLACE` against the unique key) recording a key twice leaves
exactly one record for the key, with the status derived from the second
submission; on the `src/routes/faculty.py` path, a submission whose roster
contains a student who already has a record for (course, date) fails at
commit and rolls back, leaving the ledger unchanged. -/
theorem C2_amended (recs : List AttendanceRecord) (cid d sid : Nat)
    (P1 P2 : List Nat) (fr : List AttendanceRecord)
    (roster pres : List Nat) (hmem : sid ∈ roster)
    (hkey : fr.any (fun r => decide (attKey r = (sid, cid, d))) = true) :
    filterKey (take_attendance (take_attendance recs cid d [sid] P1)
        cid d [sid] P2) (sid, cid, d)
      = [mkAttendance cid d P2 sid] ∧
    take_attendance_faculty fr cid d roster pres = fr :=
  ⟨take_attendance_filterKey_mem cid d P2 [sid] sid
      (List.mem_singleton.mpr rfl) _,
   take_attendance_faculty_rollback fr cid d roster pres sid hmem hkey⟩

/-- C2 witness: the amended theorem at a concrete double recording —
`Present` then `Absent` through the upsert path leaves one `Absent` record,
and the faculty path rolls back when the key already exists. -/
theorem C2_amended_witness :
    (1 ∈ [1] ∧ (([⟨1, 1, 20250103, "Present"⟩] : List AttendanceRecord).any
      (fun r => decide (attKey r = (1, 1, 20250103)))) = true) ∧
    (filterKey (take_attendance (take_attendance [] 1 20250103 [1] [1])
        1 20250103 [1] []) (1, 1, 20250103)
      = [mkAttendance 1 20250103 [] 1] ∧
     take_attendance_faculty [⟨1, 1, 20250103, "Present"⟩] 1 20250103 [1] []
      = [⟨1, 1, 20250103, "Present"⟩]) :=
  ⟨⟨by decide, by decide⟩,
   C2_amended [] 1 20250103 1 [1] [] [⟨1, 1, 20250103, "Present"⟩] [1] []
     (by decide) (by decide)⟩

/-! ## Claim C7 -/

/-- C7 counterexample: through `src/routes/faculty.py`'s `take_attendance`
with roster [1, 2] and empty present-list over a ledger where student 1
already holds a `Present` record for (course 1, 2025-01-04): the claim
demands student 1 end `Absent` and student 2 end `Absent`, but the
submission rolls back — student 1 stays `Present` and student 2 ends with
no record at all for the key. -/
theorem C7_counterexample :
    take_attendance_faculty [⟨1, 1, 20250104, "Present"⟩] 1 20250104
        [1, 2] []
      = [⟨1, 1, 20250104, "Present"⟩] ∧
    filterKey (take_attendance_faculty [⟨1, 1, 20250104, "Present"⟩] 1
        20250104 [1, 2] []) (2, 1, 20250104) = [] := by
  constructor <;> decide

/-- C7 (amended): on `src/app.py`'s `take_attendance` path every student in
the roster ends with exactly one record for (student, course, date) —
`Present` when in the marked-present list, `Absent` otherwise — and every
key outside the submitted (roster × course × date) keys keeps exactly its
previous records; the `src/routes/faculty.py` path achieves this only for
fresh keys: when a rostered student already has a record for
(course, date), the whole batch rolls back and the ledger is unchanged. -/
theorem C7_amended (recs : List AttendanceRecord) (cid d : Nat)
    (R P : List Nat) (sid : Nat) (k : Nat × Nat × Nat)
    (fr : List AttendanceRecord) (fsid : Nat)
    (hR : sid ∈ R) (hk : ∀ s ∈ R, k ≠ (s, cid, d))
    (hf1 : fsid ∈ R)
    (hf2 : fr.any (fun r => decide (attKey r = (fsid, cid, d))) = true) :
    filterKey (take_attendance recs cid d R P) (sid, cid, d)
      = [mkAttendance cid d P sid] ∧
    filterKey (take_attendance recs cid d R P) k = filterKey recs k ∧
    take_attendance_faculty fr cid d R P = fr :=
  ⟨take_attendance_filterKey_mem cid d P R sid hR recs,
   take_attendance_filterKey_frame cid d P R k hk recs,
   take_attendance_faculty_rollback fr cid d R P fsid hf1 hf2⟩

/-- C7 witness: the amended theorem at the spec's own example — roster
[1, 2, 3], present [1]: student 2 ends with one `Absent` record, the
untouched key (9, course, date) keeps its row, and the faculty path rolls
back over a ledger already holding student 1's row. -/
theorem C7_amended_witness :
    (2 ∈ [1, 2, 3] ∧ (∀ s ∈ [1, 2, 3], (9, 1, 20250106) ≠ (s, 1, 20250106))
      ∧ 1 ∈ [1, 2, 3] ∧
      (([⟨1, 1, 20250106, "Absent"⟩] : List AttendanceRecord).any
        (fun r => decide (attKey r = (1, 1, 20250106)))) = true) ∧
    (filterKey (take_attendance [⟨9, 1, 20250106, "Present"⟩] 1 20250106
        [1, 2, 3] [1]) (2, 1, 20250106)
      = [mkAttendance 1 20250106 [1] 2] ∧
     filterKey (take_attendance [⟨9, 1, 20250106, "Present"⟩] 1 20250106
        [1, 2, 3] [1]) (9, 1, 20250106)
      = filterKey [⟨9, 1, 20250106, "Present"⟩] (9, 1, 20250106) ∧
     take_attendance_faculty [⟨1, 1, 20250106, "Absent"⟩] 1 20250106
        [1, 2, 3] [1] = [⟨1, 1, 20250106, "Absent"⟩]) :=
  ⟨⟨by decide, by decide, by decide, by decide⟩,
   C7_amended [⟨9, 1, 20250106, "Present"⟩] 1 20250106 [1, 2, 3] [1] 2
     (9, 1, 20250106) [⟨1, 1, 20250106, "Absent"⟩] 1 (by decide)
     (by decide) (by decide) (by decide)⟩

/-! ## Claim C10 -/

/-- C10: both modify-attendance bodies only mutate the status of rows that
already exist. `src/app.py`'s version is a row-wise map of the cumulative
status update, a row no submitted (student, course, date) update targets
comes through that map unchanged, and the ledger's key sequence is
preserved exactly (so a submitted key with no existing row creates
nothing); `src/routes/faculty.py`'s version likewise preserves the key
sequence, and every untargeted row survives it unchanged. -/
theorem C10_modify_only_existing (recs : List AttendanceRecord)
    (cid d : Nat) (ups : List (Nat × String)) :
    modify_attendance recs cid d ups = recs.map (applyUpdates cid d ups) ∧
    (∀ r : AttendanceRecord, targeted cid d ups r = false →
      applyUpdates cid d ups r = r) ∧
    (modify_attendance recs cid d ups).map attKey = recs.map attKey ∧
    (modify_attendance_faculty recs cid d ups).map attKey
      = recs.map attKey ∧
    (∀ r ∈ recs, targeted cid d ups r = false →
      r ∈ modify_attendance_faculty recs cid d ups) := by
  refine ⟨modify_attendance_eq_map recs cid d ups,
    fun r h => applyUpdates_of_not_targeted cid d ups r h, ?_,
    modify_attendance_faculty_map_attKey recs cid d ups,
    fun r hr h =>
      mem_modify_attendance_faculty_of_not_targeted recs cid d ups r hr h⟩
  rw [modify_attendance_eq_map recs cid d ups, List.map_map]
  apply List.map_congr_left
  intro r _
  exact attKey_applyUpdates cid d ups r

/-- C10 witness: a two-row ledger where only student 1's row is submitted:
student 2's row is untouched on both paths, the key sequences are
preserved, and the cumulative update fixes the untargeted row. -/
theorem C10_modify_only_existing_witness :
    (targeted 1 20250107 [(1, "Absent")] ⟨2, 1, 20250107, "Absent"⟩
      = false ∧
     (⟨2, 1, 20250107, "Absent"⟩ : AttendanceRecord)
       ∈ [⟨1, 1, 20250107, "Present"⟩, ⟨2, 1, 20250107, "Absent"⟩]) ∧
    (applyUpdates 1 20250107 [(1, "Absent")] ⟨2, 1, 20250107, "Absent"⟩
      = ⟨2, 1, 20250107, "Absent"⟩ ∧
     (modify_attendance [⟨1, 1, 20250107, "Present"⟩,
        ⟨2, 1, 20250107, "Absent"⟩] 1 20250107 [(1, "Absent")]).map attKey
      = ([⟨1, 1, 20250107, "Present"⟩,
          ⟨2, 1, 20250107, "Absent"⟩] : List AttendanceRecord).map attKey ∧
     (⟨2, 1, 20250107, "Absent"⟩ : AttendanceRecord)
       ∈ modify_attendance_faculty [⟨1, 1, 20250107, "Present"⟩,
          ⟨2, 1, 20250107, "Absent"⟩] 1 20250107 [(1, "Absent")]) :=
  ⟨⟨by decide, by decide⟩,
   (C10_modify_only_existing [⟨1, 1, 20250107, "Present"⟩,
       ⟨2, 1, 20250107, "Absent"⟩] 1 20250107 [(1, "Absent")]).2.1
     ⟨2, 1, 20250107, "Absent"⟩ (by decide),
   (C10_modify_only_existing [⟨1, 1, 20250107, "Present"⟩,
       ⟨2, 1, 20250107, "Absent"⟩] 1 20250107 [(1, "Absent")]).2.2.1,
   (C10_modify_only_existing [⟨1, 1, 20250107, "Present"⟩,
       ⟨2, 1, 20250107, "Absent"⟩] 1 20250107 [(1, "Absent")]).2.2.2.2
     ⟨2, 1, 20250107, "Absent"⟩ (by decide) (by decide)⟩
